import Mathlib

/-!
Shallow embedding of the CCC contest-staging pipeline
(`ccc_core.py`, `ccc_runner.py`, `ccc_simple.py`, `run_level.py`).

The program is pure filesystem orchestration, so the embedding models:
  * a directory as a list of entries (`FSEntry`): top-level regular files
    and subdirectories (with the names of the files they contain);
  * the relevant pipeline state (`PipeState`): the contents of the
    staging directory `infos/`, of `Inputs/` and `Outputs/`, and the
    generated prompt file (if any);
  * the external environment (`Env`): where the level archive, the PDF
    document and the solution script are found, whether the optional
    pdfplumber capability is importable, and the outcome of launching
    the child solution process (`LaunchResult`).

Filename classification in the source is done with `pathlib` glob
patterns; the patterns actually used (`*.in`, `*.out`, `*example*.out`,
`*`) are translated to explicit character-list matchers below.
-/

/-- Entry of a directory: a regular file, or a subdirectory together with
the names of the files directly inside it (archive extraction can create
such subdirectories inside `infos/`). -/
inductive FSEntry where
  | file (name : String)
  | dir (name : String) (contents : List String)
deriving DecidableEq, Repr

/-- Name of a directory entry. -/
def FSEntry.name : FSEntry → String
  | FSEntry.file n => n
  | FSEntry.dir n _ => n

/-- Python `Path.is_file()` on a directory entry. -/
def FSEntry.isFile : FSEntry → Bool
  | FSEntry.file _ => true
  | FSEntry.dir _ _ => false

/-- Where a file located by the search helpers lives: the user's
`Downloads` directory, the current working directory, or the `levels/`
scripts directory. -/
inductive Loc where
  | downloads
  | cwd
  | levels
deriving DecidableEq, Repr

/-- Outcome of `subprocess.run([sys.executable, script])`: the child
exited with a code, or launching raised an exception. -/
inductive LaunchResult where
  | exited (code : Int)
  | raised (msg : String)
deriving DecidableEq, Repr

/-- External environment of one pipeline run: the level number, where the
archive / PDF / solution script can be found, whether the archive is
readable, whether pdfplumber is importable, the result of locating and
text-extracting the PDF (`none` models not-found or extraction error),
and the outcome of launching the solution script. -/
structure Env where
  level : Nat
  zipInDownloads : Bool
  zipInCwd : Bool
  zipOk : Bool
  zipEntries : List FSEntry
  pdfAvailable : Bool
  pdfExtracted : Option String
  scriptInCwd : Bool
  scriptInLevels : Bool
  launch : LaunchResult

/-- Pipeline-visible filesystem state: contents of the staging directory
`infos/`, of `Inputs/` and `Outputs/`, and the content of the generated
AI prompt file (`none` while not written). -/
structure PipeState where
  infos : List FSEntry
  inputs : List FSEntry
  outputs : List FSEntry
  prompt : Option String
deriving DecidableEq, Repr

/-- Decidable search for `needle` occurring as a contiguous run inside
`hay` (used to translate the `*example*` part of a glob pattern). -/
def containsSeq (hay needle : List Char) : Bool :=
  match hay with
  | [] => needle.isPrefixOf ([] : List Char)
  | _ :: t => needle.isPrefixOf hay || containsSeq t needle

/-- Glob pattern `*.in`: the name ends with `.in`. -/
def matchDotIn (name : String) : Bool :=
  ".in".toList.isSuffixOf name.toList

/-- Glob pattern `*.out`: the name ends with `.out`. -/
def matchDotOut (name : String) : Bool :=
  ".out".toList.isSuffixOf name.toList

/-- Glob pattern `*example*.out`: the name ends with `.out` and contains
`example` somewhere before that suffix. -/
def matchExampleOut (name : String) : Bool :=
  let cs := name.toList
  ".out".toList.isSuffixOf cs &&
    containsSeq (cs.take (cs.length - 4)) "example".toList

/-- Effect on the destination directory of `shutil.move`-ing each of the
`moved` entries into it: a same-named existing entry is overwritten, the
moved entries are now present. -/
def moveAll (dest moved : List FSEntry) : List FSEntry :=
  dest.filter (fun d => !(moved.any (fun m => m.name == d.name))) ++ moved

/-- Python f-string name `level{n}.zip`. -/
def zip_filename (n : Nat) : String :=
  "level" ++ Nat.repr n ++ ".zip"

/-- Python f-string name `level{n}.py`. -/
def script_filename (n : Nat) : String :=
  "level" ++ Nat.repr n ++ ".py"

/-- CCCCore.clear_folder: unlink every entry of the folder that
`is_file()`; subdirectories are not touched. -/
def CCCCore.clear_folder (entries : List FSEntry) : List FSEntry :=
  entries.filter (fun e => !e.isFile)

/-- CCCCore.find_zip_file: look for `level{n}.zip` first in
`~/Downloads`, then in the current directory; `none` models the
not-found result (Python `None`). -/
def CCCCore.find_zip_file (env : Env) : Option Loc :=
  if env.zipInDownloads then some Loc.downloads
  else if env.zipInCwd then some Loc.cwd
  else none

/-- CCCCore.extract_zip: locate the archive and extract all its entries
into `infos/`; `none` models the `False` return (archive missing, or the
archive reader raised). -/
def CCCCore.extract_zip (env : Env) (s : PipeState) : Option PipeState :=
  match CCCCore.find_zip_file env with
  | none => none
  | some _ =>
      if env.zipOk then
        some { s with infos := moveAll s.infos env.zipEntries }
      else none

/-- CCCCore.extract_pdf_text: `None` when pdfplumber is not importable;
otherwise the outcome of locating the PDF and extracting its text
(`env.pdfExtracted`, where `none` models no-PDF-found or an extraction
error). -/
def CCCCore.extract_pdf_text (env : Env) : Option String :=
  if env.pdfAvailable then env.pdfExtracted else none

/-- CCCCore.organize_files: move the `infos/*.in` glob matches into
`Inputs/`, then the `infos/*example*.out` glob matches into `Outputs/`,
returning how many of each were moved. -/
def CCCCore.organize_files (s : PipeState) : PipeState × Nat × Nat :=
  let in_files := s.infos.filter (fun e => matchDotIn e.name)
  let infos1 := s.infos.filter (fun e => !matchDotIn e.name)
  let ex_files := infos1.filter (fun e => matchExampleOut e.name)
  let infos2 := infos1.filter (fun e => !matchExampleOut e.name)
  ({ s with
      infos := infos2
      inputs := moveAll s.inputs in_files
      outputs := moveAll s.outputs ex_files },
    in_files.length, ex_files.length)

/-- CCCCore.run_python_script: return the child exit code, mapping any
exception raised while launching to the value 1. -/
def CCCCore.run_python_script (r : LaunchResult) : Int :=
  match r with
  | LaunchResult.exited c => c
  | LaunchResult.raised _ => 1

/-- CCCCore.find_level_script: look for `level{n}.py` first in the
current directory, then in `levels/`. -/
def CCCCore.find_level_script (env : Env) : Option Loc :=
  if env.scriptInCwd then some Loc.cwd
  else if env.scriptInLevels then some Loc.levels
  else none

/-- CCCCore.cleanup_infos: unlink every entry of `infos/` that
`is_file()`; subdirectories are not touched. -/
def CCCCore.cleanup_infos (entries : List FSEntry) : List FSEntry :=
  entries.filter (fun e => !e.isFile)

/-- Single-quote character (U+0027) as a string, for the embedded code
templates. -/
def apos : String := String.singleton (Char.ofNat 39)

/-- Literal opening-brace character as a string. -/
def lbr : String := String.singleton (Char.ofNat 123)

/-- Literal closing-brace character as a string. -/
def rbr : String := String.singleton (Char.ofNat 125)

/-- CCCCore.create_ai_prompt template: the rendered prompt text for a
level and extracted PDF text (English template of `ccc_core.py`). -/
def CCCCore.prompt_text (level : Nat) (pdf_text : String) : String :=
  let L := Nat.repr level
  "# Coding Challenge - Level " ++ L
  ++ "\n\n## Problem Description (from PDF):\n\n" ++ pdf_text
  ++ "\n\n## Task:\nCreate a Python solution that:\n"
  ++ "1. Reads input files from the Inputs/ folder\n"
  ++ "2. Processes each input according to the problem description\n"
  ++ "3. Writes output files to the Outputs/ folder with the same name but .out extension\n\n"
  ++ "## Input Files:\n- Located in: Inputs/\n- Format: level" ++ L ++ "_*.in\n\n"
  ++ "## Output Files:\n- Should be written to: Outputs/\n- Format: level" ++ L ++ "_*.out\n\n"
  ++ "## Example Structure:\n```python\nfrom pathlib import Path\n\n"
  ++ "def solve(input_data):\n    # Your solution logic here\n    pass\n\n"
  ++ "def main():\n    input_folder = Path(\"Inputs\")\n    output_folder = Path(\"Outputs\")\n"
  ++ "    output_folder.mkdir(exist_ok=True)\n    \n"
  ++ "    for input_file in sorted(input_folder.glob(\"level" ++ L ++ "_*.in\")):\n"
  ++ "        with open(input_file, " ++ apos ++ "r" ++ apos ++ ") as f:\n"
  ++ "            data = f.read().strip()\n        \n"
  ++ "        result = solve(data)\n        \n"
  ++ "        output_file = output_folder / input_file.name.replace("
  ++ apos ++ ".in" ++ apos ++ ", " ++ apos ++ ".out" ++ apos ++ ")\n"
  ++ "        with open(output_file, " ++ apos ++ "w" ++ apos ++ ") as f:\n"
  ++ "            f.write(str(result))\n\n"
  ++ "if __name__ == \"__main__\":\n    main()\n```\n\n"
  ++ "Please provide a complete Python solution for this problem.\n\n"
  ++ "The file should be named: level" ++ L ++ ".py\n"

/-- CCCCore.create_ai_prompt: render the template and persist it as the
prompt file (modelled by the `prompt` field of the state). -/
def CCCCore.create_ai_prompt (level : Nat) (pdf_text : String) (s : PipeState) : PipeState :=
  { s with prompt := some (CCCCore.prompt_text level pdf_text) }

/-- Placeholder inserted by `ccc_simple.py` when no PDF text is
available. -/
def CCCSimple.placeholder : String :=
  "[PDF nicht verf\u00fcgbar - Problem manuell eingeben]"

/-- Part of the `ccc_simple.py` prompt template before the description
field. -/
def CCCSimple.prompt_pre (level : Nat) : String :=
  "# Coding Challenge - Level " ++ Nat.repr level
  ++ "\n\n## Problembeschreibung:\n"

/-- Part of the `ccc_simple.py` prompt template after the description
field. -/
def CCCSimple.prompt_post (level : Nat) : String :=
  let L := Nat.repr level
  "\n\n## Aufgabe:\nErstelle eine vollst\u00e4ndige Python-L\u00f6sung die:\n"
  ++ "1. Input-Dateien aus Inputs/ liest\n"
  ++ "2. Jede Eingabe gem\u00e4\u00df Problembeschreibung verarbeitet  \n"
  ++ "3. Output-Dateien nach Outputs/ schreibt\n\n"
  ++ "## Input-Dateien:\n- Pfad: Inputs/\n- Format: level" ++ L ++ "_*.in\n\n"
  ++ "## Output-Dateien:\n- Pfad: Outputs/  \n- Format: level" ++ L ++ "_*.out\n\n"
  ++ "## Template:\n```python\nfrom pathlib import Path\n\n"
  ++ "def solve(input_data):\n    # Deine L\u00f6sung hier\n"
  ++ "    lines = input_data.strip().split(" ++ apos ++ "\\n" ++ apos ++ ")\n"
  ++ "    # ... Verarbeitung ...\n    return \"result\"\n\n"
  ++ "def main():\n    input_folder = Path(\"Inputs\")\n    output_folder = Path(\"Outputs\")\n"
  ++ "    output_folder.mkdir(exist_ok=True)\n    \n"
  ++ "    for input_file in sorted(input_folder.glob(\"level" ++ L ++ "_*.in\")):\n"
  ++ "        with open(input_file, " ++ apos ++ "r" ++ apos ++ ") as f:\n"
  ++ "            data = f.read()\n        \n"
  ++ "        result = solve(data)\n        \n"
  ++ "        output_file = output_folder / input_file.name.replace("
  ++ apos ++ ".in" ++ apos ++ ", " ++ apos ++ ".out" ++ apos ++ ")\n"
  ++ "        with open(output_file, " ++ apos ++ "w" ++ apos ++ ") as f:\n"
  ++ "            f.write(str(result))\n"
  ++ "        print(f\"Generiert: " ++ lbr ++ "output_file.name" ++ rbr ++ "\")\n\n"
  ++ "if __name__ == \"__main__\":\n    main()\n```\n\n"
  ++ "Bitte erstelle eine vollst\u00e4ndige L\u00f6sung und speichere sie als level"
  ++ L ++ ".py\n"

/-- CCCSimple.create_ai_prompt template: the description field holds the
extracted PDF text, or the placeholder when that text is empty (Python
truthiness of `pdf_text`). -/
def CCCSimple.prompt_text (level : Nat) (pdf_text : String) : String :=
  CCCSimple.prompt_pre level
  ++ (if pdf_text = "" then CCCSimple.placeholder else pdf_text)
  ++ CCCSimple.prompt_post level

/-- CCCSimple.create_ai_prompt: render the template and persist it as the
prompt file (modelled by the `prompt` field of the state). -/
def CCCSimple.create_ai_prompt (level : Nat) (pdf_text : String) (s : PipeState) : PipeState :=
  { s with prompt := some (CCCSimple.prompt_text level pdf_text) }

/-- CCCSimple.find_zip: same search order as CCCCore.find_zip_file;
`none` models the raised FileNotFoundError. -/
def CCCSimple.find_zip (env : Env) : Option Loc :=
  if env.zipInDownloads then some Loc.downloads
  else if env.zipInCwd then some Loc.cwd
  else none

/-- CCCSimple.extract_zip: locate the archive (raising when absent,
modelled as `none`) and extract all entries into `infos/`; archive-reader
errors propagate as exceptions, also modelled as `none`. -/
def CCCSimple.extract_zip (env : Env) (s : PipeState) : Option PipeState :=
  match CCCSimple.find_zip env with
  | none => none
  | some _ =>
      if env.zipOk then
        some { s with infos := moveAll s.infos env.zipEntries }
      else none

/-- CCCSimple.extract_pdf_text: empty string when pdfplumber is not
importable or when locating or reading the PDF fails. -/
def CCCSimple.extract_pdf_text (env : Env) : String :=
  if env.pdfAvailable then
    match env.pdfExtracted with
    | some t => t
    | none => ""
  else ""

/-- CCCSimple.organize_files: move the `infos/*.in` glob matches into
`Inputs/` and then all `infos/*.out` glob matches into `Outputs/` (this
variant does not restrict to example outputs and returns nothing). -/
def CCCSimple.organize_files (s : PipeState) : PipeState :=
  let in_files := s.infos.filter (fun e => matchDotIn e.name)
  let infos1 := s.infos.filter (fun e => !matchDotIn e.name)
  let out_files := infos1.filter (fun e => matchDotOut e.name)
  let infos2 := infos1.filter (fun e => !matchDotOut e.name)
  { s with
      infos := infos2
      inputs := moveAll s.inputs in_files
      outputs := moveAll s.outputs out_files }

/-- CCCSimple.run_solution: `False` when `level{n}.py` is not in the
current directory, when launching raises, or when the child exits
nonzero; `True` only on child exit code 0. -/
def CCCSimple.run_solution (env : Env) : Bool :=
  if env.scriptInCwd then
    match env.launch with
    | LaunchResult.exited c => c == 0
    | LaunchResult.raised _ => false
  else false

/-- CCCSimple.cleanup: unlink every entry of `infos/` that `is_file()`;
subdirectories are not touched. -/
def CCCSimple.cleanup (entries : List FSEntry) : List FSEntry :=
  entries.filter (fun e => !e.isFile)

/-- Step 1 of CCCSimple.run_interactive / run_auto: extract the archive,
extract the PDF text, write the prompt, organize the files; `none`
models the caught exception (processing failed). -/
def CCCSimple.process (env : Env) (s : PipeState) : Option PipeState :=
  match CCCSimple.extract_zip env s with
  | none => none
  | some s1 =>
      let text := CCCSimple.extract_pdf_text env
      let s2 := CCCSimple.create_ai_prompt env.level text s1
      some (CCCSimple.organize_files s2)

/-- Tail of CCCSimple.run_interactive / run_auto after processing: run
the solution; on success clean up `infos/` and exit 0, otherwise exit 1
without cleanup. -/
def CCCSimple.after_processing (env : Env) (s : PipeState) : Int × PipeState :=
  if CCCSimple.run_solution env then
    (0, { s with infos := CCCSimple.cleanup s.infos })
  else (1, s)

/-- CCCSimple.run_interactive: the whole `ccc_simple.py` pipeline
(modulo console interaction), returning the exit code and final state. -/
def CCCSimple.run_interactive (env : Env) (s : PipeState) : Int × PipeState :=
  match CCCSimple.process env s with
  | none => (1, s)
  | some s1 => CCCSimple.after_processing env s1

/-- CCCRunner._run_processing_pipeline: clear `Inputs/` and `Outputs/`,
extract the archive (halting on failure), create the prompt only when
extracted PDF text is truthy (non-`None` and non-empty), organize the
staged files. -/
def CCCRunner.processing_pipeline (env : Env) (s : PipeState) : Bool × PipeState :=
  let s1 := { s with
      inputs := CCCCore.clear_folder s.inputs
      outputs := CCCCore.clear_folder s.outputs }
  match CCCCore.extract_zip env s1 with
  | none => (false, s1)
  | some s2 =>
      let s3 :=
        match CCCCore.extract_pdf_text env with
        | some t => if t = "" then s2 else CCCCore.create_ai_prompt env.level t s2
        | none => s2
      (true, (CCCCore.organize_files s3).1)

/-- CCCRunner._run_solution: locate the solution script (exit 1 when
absent, no state change), run it (exit code propagated verbatim on
nonzero, no cleanup), and on success clean up `infos/` and exit 0. -/
def CCCRunner.run_solution (env : Env) (s : PipeState) : Int × PipeState :=
  match CCCCore.find_level_script env with
  | none => (1, s)
  | some _ =>
      let code := CCCCore.run_python_script env.launch
      if code != 0 then (code, s)
      else (0, { s with infos := CCCCore.cleanup_infos s.infos })

/-- run_level.py: run the general processor, then the level script,
propagating the first nonzero exit code; a missing level script yields
exit code 1. -/
def run_level (processorExit : Int) (scriptExists : Bool) (childExit : Int) : Int :=
  if processorExit != 0 then processorExit
  else if !scriptExists then 1
  else if childExit != 0 then childExit
  else 0

/-- A list is a prefix of itself followed by anything. -/
theorem isPrefixOf_append_self (p b : List Char) : p.isPrefixOf (p ++ b) = true :=
  List.isPrefixOf_iff_prefix.mpr (List.prefix_append p b)

/-- containsSeq finds a needle that sits at the front of the haystack. -/
theorem containsSeq_of_isPrefixOf (hay p : List Char)
    (h : p.isPrefixOf hay = true) : containsSeq hay p = true := by
  cases hay with
  | nil =>
      cases p with
      | nil => rfl
      | cons c cs => simp [List.isPrefixOf] at h
  | cons x t => simp [containsSeq, h]

/-- containsSeq finds a needle that occurs anywhere in the haystack. -/
theorem containsSeq_append (a p b : List Char) :
    containsSeq (a ++ p ++ b) p = true := by
  induction a with
  | nil => exact containsSeq_of_isPrefixOf _ _ (isPrefixOf_append_self p b)
  | cons x xs ih =>
      have ih' : containsSeq (xs ++ (p ++ b)) p = true := by
        rw [← List.append_assoc]
        exact ih
      simp [containsSeq, ih']

/-- Decidable substring check on strings, by character list. -/
def strContains (s pat : String) : Bool :=
  containsSeq s.toList pat.toList

/-- A string contains any of its explicit middle segments. -/
theorem strContains_append_mid (a p b : String) :
    strContains (a ++ p ++ b) p = true := by
  show containsSeq (a ++ p ++ b).toList p.toList = true
  have h : (a ++ p ++ b).toList = a.toList ++ p.toList ++ b.toList := by
    show ((a ++ p) ++ b).data = (a.data ++ p.data) ++ b.data
    rw [String.data_append, String.data_append]
  rw [h]
  exact containsSeq_append _ _ _

/-- Moving nothing into a directory leaves it unchanged. -/
theorem moveAll_nil (dest : List FSEntry) : moveAll dest [] = dest := by
  simp [moveAll]

/-- The simple classifier never touches the prompt file. -/
theorem simple_organize_keeps_prompt (s : PipeState) :
    (CCCSimple.organize_files s).prompt = s.prompt := rfl

/-- The core classifier never touches the prompt file. -/
theorem core_organize_keeps_prompt (s : PipeState) :
    ((CCCCore.organize_files s).1).prompt = s.prompt := rfl

/-- The placeholder prompt decomposes around the placeholder text. -/
theorem CCCSimple.prompt_text_empty (level : Nat) :
    CCCSimple.prompt_text level "" =
      CCCSimple.prompt_pre level ++ CCCSimple.placeholder
        ++ CCCSimple.prompt_post level := by
  simp [CCCSimple.prompt_text]

/-- The empty-text prompt contains the placeholder. -/
theorem prompt_text_empty_contains_placeholder (level : Nat) :
    strContains (CCCSimple.prompt_text level "") CCCSimple.placeholder = true := by
  rw [CCCSimple.prompt_text_empty]
  exact strContains_append_mid _ _ _

/-- Pipeline state with every modelled directory empty. -/
def stateEmpty : PipeState :=
  { infos := [], inputs := [], outputs := [], prompt := none }

/-- Staging directory of the end-to-end classification scenario. -/
def stateLevel3 : PipeState :=
  { infos := [FSEntry.file "level3_1.in", FSEntry.file "level3_1_example.out",
              FSEntry.file "level3_2.in"],
    inputs := [], outputs := [], prompt := none }

/-- Staging directory holding only entries matching neither classifier
pattern: a stray text file and a subdirectory left by extraction. -/
def stateMisc : PipeState :=
  { infos := [FSEntry.file "readme.txt", FSEntry.dir "docs" ["statement.pdf"]],
    inputs := [FSEntry.file "old.in"], outputs := [], prompt := none }

/-- Run where the archive is in Downloads, pdfplumber is missing, the
solution script exists in the working directory and exits with code 7. -/
def envChild7 : Env :=
  { level := 3, zipInDownloads := true, zipInCwd := false, zipOk := true,
    zipEntries := [FSEntry.file "level3_1.in"], pdfAvailable := false,
    pdfExtracted := none, scriptInCwd := true, scriptInLevels := false,
    launch := LaunchResult.exited 7 }

/-- Run where the archive is in Downloads and readable, pdfplumber is
missing, and no solution script exists anywhere. -/
def envNoPdf : Env :=
  { level := 3, zipInDownloads := true, zipInCwd := false, zipOk := true,
    zipEntries := [], pdfAvailable := false, pdfExtracted := none,
    scriptInCwd := false, scriptInLevels := false,
    launch := LaunchResult.exited 0 }

/-- Run where the archive exists only in the working directory. -/
def envZipCwd : Env :=
  { level := 3, zipInDownloads := false, zipInCwd := true, zipOk := true,
    zipEntries := [], pdfAvailable := true, pdfExtracted := some "text",
    scriptInCwd := true, scriptInLevels := false,
    launch := LaunchResult.exited 0 }

/-- Run where the archive exists in neither search location. -/
def envNoZip : Env :=
  { level := 3, zipInDownloads := false, zipInCwd := false, zipOk := true,
    zipEntries := [], pdfAvailable := true, pdfExtracted := some "text",
    scriptInCwd := true, scriptInLevels := false,
    launch := LaunchResult.exited 0 }

/-- C3: for a staging directory containing exactly level3_1.in,
level3_1_example.out and level3_2.in, classification leaves Inputs/ with
the two .in files, Outputs/ with the example output, and returns the
counts (2, 1); the ccc_simple variant moves the same files. -/
theorem C3_classifier_scenario :
    CCCCore.organize_files stateLevel3 =
      ({ infos := [],
         inputs := [FSEntry.file "level3_1.in", FSEntry.file "level3_2.in"],
         outputs := [FSEntry.file "level3_1_example.out"], prompt := none },
       2, 1) ∧
    CCCSimple.organize_files stateLevel3 =
      { infos := [],
        inputs := [FSEntry.file "level3_1.in", FSEntry.file "level3_2.in"],
        outputs := [FSEntry.file "level3_1_example.out"], prompt := none } := by
  constructor <;> decide

/-- C7: the classifier is idempotent on a staging directory with no
matching entry: it moves nothing, changes nothing, and returns (0, 0). -/
theorem C7_classifier_idempotent (s : PipeState)
    (h : ∀ e ∈ s.infos, matchDotIn e.name = false ∧ matchExampleOut e.name = false) :
    CCCCore.organize_files s = (s, 0, 0) := by
  have hin : s.infos.filter (fun e => matchDotIn e.name) = [] :=
    List.filter_eq_nil_iff.mpr (fun a ha => by simp [(h a ha).1])
  have hkeep : s.infos.filter (fun e => !matchDotIn e.name) = s.infos :=
    List.filter_eq_self.mpr (fun a ha => by simp [(h a ha).1])
  have hex : s.infos.filter (fun e => matchExampleOut e.name) = [] :=
    List.filter_eq_nil_iff.mpr (fun a ha => by simp [(h a ha).2])
  have hkeep2 : s.infos.filter (fun e => !matchExampleOut e.name) = s.infos :=
    List.filter_eq_self.mpr (fun a ha => by simp [(h a ha).2])
  show ({ s with
      infos := (s.infos.filter (fun e => !matchDotIn e.name)).filter
        (fun e => !matchExampleOut e.name)
      inputs := moveAll s.inputs (s.infos.filter (fun e => matchDotIn e.name))
      outputs := moveAll s.outputs
        ((s.infos.filter (fun e => !matchDotIn e.name)).filter
          (fun e => matchExampleOut e.name)) },
    (s.infos.filter (fun e => matchDotIn e.name)).length,
    ((s.infos.filter (fun e => !matchDotIn e.name)).filter
      (fun e => matchExampleOut e.name)).length) = (s, 0, 0)
  rw [hkeep, hin, hex, hkeep2, moveAll_nil, moveAll_nil]
  rfl

/-- C7 witness: on a staging directory holding only a stray text file and
a subdirectory, the classifier moves nothing and returns (0, 0). -/
theorem C7_witness : CCCCore.organize_files stateMisc = (stateMisc, 0, 0) :=
  C7_classifier_idempotent stateMisc (by decide)

/-- C8: an entry of the staging directory matching neither classifier
pattern is still in the staging directory after classification, and such
a file is removed by the later cleanup stage. -/
theorem C8_nonmatching_untouched (s : PipeState) (e : FSEntry)
    (h1 : e ∈ s.infos) (h2 : matchDotIn e.name = false)
    (h3 : matchExampleOut e.name = false) :
    e ∈ ((CCCCore.organize_files s).1).infos ∧
    (e.isFile = true →
      e ∉ CCCCore.cleanup_infos (((CCCCore.organize_files s).1).infos)) := by
  constructor
  · show e ∈ (s.infos.filter (fun x => !matchDotIn x.name)).filter
      (fun x => !matchExampleOut x.name)
    exact List.mem_filter.mpr
      ⟨List.mem_filter.mpr ⟨h1, by simp [h2]⟩, by simp [h3]⟩
  · intro hf hmem
    have hp := (List.mem_filter.mp hmem).2
    simp [hf] at hp

/-- C8 witness: the stray text file survives classification of the
miscellaneous staging directory and is removed by cleanup. -/
theorem C8_witness :
    FSEntry.file "readme.txt" ∈ ((CCCCore.organize_files stateMisc).1).infos ∧
    FSEntry.file "readme.txt" ∉
      CCCCore.cleanup_infos (((CCCCore.organize_files stateMisc).1).infos) :=
  ⟨(C8_nonmatching_untouched stateMisc (FSEntry.file "readme.txt")
      (by decide) (by decide) (by decide)).1,
   (C8_nonmatching_untouched stateMisc (FSEntry.file "readme.txt")
      (by decide) (by decide) (by decide)).2 rfl⟩

/-- C9: clearing and cleanup are shallow: a subdirectory of the target
folder survives, with its contents, all three purge operations, and
anything removed was a directly contained regular file. -/
theorem C9_purge_shallow (l : List FSEntry) (n : String) (c : List String)
    (h : FSEntry.dir n c ∈ l) :
    FSEntry.dir n c ∈ CCCCore.clear_folder l ∧
    FSEntry.dir n c ∈ CCCCore.cleanup_infos l ∧
    FSEntry.dir n c ∈ CCCSimple.cleanup l ∧
    (∀ e ∈ l, e ∉ CCCCore.clear_folder l → e.isFile = true) := by
  refine ⟨List.mem_filter.mpr ⟨h, rfl⟩, List.mem_filter.mpr ⟨h, rfl⟩,
    List.mem_filter.mpr ⟨h, rfl⟩, ?_⟩
  intro e he hne
  cases hb : e.isFile with
  | true => rfl
  | false =>
      exact absurd (List.mem_filter.mpr ⟨he, by simp [hb]⟩) hne

/-- C9 witness: the extraction subdirectory of the miscellaneous staging
directory survives all three purge operations. -/
theorem C9_witness :
    FSEntry.dir "docs" ["statement.pdf"] ∈ CCCCore.clear_folder stateMisc.infos ∧
    FSEntry.dir "docs" ["statement.pdf"] ∈ CCCCore.cleanup_infos stateMisc.infos ∧
    FSEntry.dir "docs" ["statement.pdf"] ∈ CCCSimple.cleanup stateMisc.infos ∧
    (∀ e ∈ stateMisc.infos, e ∉ CCCCore.clear_folder stateMisc.infos →
      e.isFile = true) :=
  C9_purge_shallow stateMisc.infos "docs" ["statement.pdf"] (by decide)

/-- C10: the solution-invocation wrapper is total and maps a launch
exception to the return value 1, indistinguishable from a child exit
with code 1. -/
theorem C10_run_python_script_total (m : String) :
    CCCCore.run_python_script (LaunchResult.raised m) = 1 ∧
    CCCCore.run_python_script (LaunchResult.raised m) =
      CCCCore.run_python_script (LaunchResult.exited 1) :=
  ⟨rfl, rfl⟩

/-- C5: when the solution script exists in neither candidate location,
the lookup reports not-found, the solution stage exits with code 1
leaving the state untouched (no cleanup), and run_level.py also exits
with code 1. -/
theorem C5_script_not_found (env : Env) (s : PipeState) (c : Int)
    (h1 : env.scriptInCwd = false) (h2 : env.scriptInLevels = false) :
    CCCCore.find_level_script env = none ∧
    CCCRunner.run_solution env s = (1, s) ∧
    run_level 0 false c = 1 := by
  have hf : CCCCore.find_level_script env = none := by
    simp [CCCCore.find_level_script, h1, h2]
  refine ⟨hf, ?_, ?_⟩
  · simp [CCCRunner.run_solution, hf]
  · simp [run_level]

/-- C5 witness: with no solution script anywhere, the solution stage of
the concrete no-script run exits 1 and leaves the level-3 staging state
untouched. -/
theorem C5_witness :
    CCCCore.find_level_script envNoPdf = none ∧
    CCCRunner.run_solution envNoPdf stateLevel3 = (1, stateLevel3) ∧
    run_level 0 false 5 = 1 :=
  C5_script_not_found envNoPdf stateLevel3 5 rfl rfl

/-- C4: every staging entry whose name matches the input pattern is,
after classification, present in Inputs/ exactly once and no longer in
the staging directory (the move is destructive, not a copy). -/
theorem C4_inputs_moved (s : PipeState) (e : FSEntry)
    (h1 : e ∈ s.infos) (h2 : matchDotIn e.name = true) (hnd : s.infos.Nodup) :
    e ∈ ((CCCCore.organize_files s).1).inputs ∧
    e ∉ ((CCCCore.organize_files s).1).infos ∧
    ((CCCCore.organize_files s).1).inputs.count e = 1 := by
  have hin : e ∈ s.infos.filter (fun x => matchDotIn x.name) :=
    List.mem_filter.mpr ⟨h1, h2⟩
  refine ⟨?_, ?_, ?_⟩
  · show e ∈ moveAll s.inputs (s.infos.filter (fun x => matchDotIn x.name))
    exact List.mem_append.mpr (Or.inr hin)
  · intro hmem
    have hmem1 : e ∈ s.infos.filter (fun x => !matchDotIn x.name) :=
      (List.mem_filter.mp hmem).1
    have hp := (List.mem_filter.mp hmem1).2
    simp [h2] at hp
  · show ((s.inputs.filter (fun d =>
        !((s.infos.filter (fun x => matchDotIn x.name)).any
          (fun m => m.name == d.name)))) ++
      s.infos.filter (fun x => matchDotIn x.name)).count e = 1
    rw [List.count_append]
    have hz : e ∉ s.inputs.filter (fun d =>
        !((s.infos.filter (fun x => matchDotIn x.name)).any
          (fun m => m.name == d.name))) := by
      intro hm
      have hp := (List.mem_filter.mp hm).2
      have hany : (s.infos.filter (fun x => matchDotIn x.name)).any
          (fun m => m.name == e.name) = true :=
        List.any_eq_true.mpr ⟨e, hin, beq_self_eq_true _⟩
      rw [hany] at hp
      simp at hp
    rw [List.count_eq_zero.mpr hz,
      List.count_eq_one_of_mem (List.Nodup.filter _ hnd) hin]

/-- C4 witness: level3_1.in is moved into Inputs/ exactly once and is
gone from the staging directory of the concrete level-3 scenario. -/
theorem C4_witness :
    FSEntry.file "level3_1.in" ∈ ((CCCCore.organize_files stateLevel3).1).inputs ∧
    FSEntry.file "level3_1.in" ∉ ((CCCCore.organize_files stateLevel3).1).infos ∧
    ((CCCCore.organize_files stateLevel3).1).inputs.count
      (FSEntry.file "level3_1.in") = 1 :=
  C4_inputs_moved stateLevel3 (FSEntry.file "level3_1.in")
    (by decide) (by decide) (by decide)

/-- C6: the archive locator prefers Downloads over the working
directory, and when the archive exists in neither location both locators
report not-found and both pipelines halt before extraction, prompt
synthesis and classification. -/
theorem C6_archive_locator (env : Env) (s : PipeState) :
    (env.zipInDownloads = true →
      CCCCore.find_zip_file env = some Loc.downloads ∧
      CCCSimple.find_zip env = some Loc.downloads) ∧
    (env.zipInDownloads = false → env.zipInCwd = true →
      CCCCore.find_zip_file env = some Loc.cwd ∧
      CCCSimple.find_zip env = some Loc.cwd) ∧
    (env.zipInDownloads = false → env.zipInCwd = false →
      CCCCore.find_zip_file env = none ∧
      CCCSimple.find_zip env = none ∧
      CCCRunner.processing_pipeline env s =
        (false, { s with inputs := CCCCore.clear_folder s.inputs,
                         outputs := CCCCore.clear_folder s.outputs }) ∧
      CCCSimple.run_interactive env s = (1, s)) := by
  refine ⟨fun h1 => ?_, fun h1 h2 => ?_, fun h1 h2 => ?_⟩
  · constructor <;> simp [CCCCore.find_zip_file, CCCSimple.find_zip, h1]
  · constructor <;> simp [CCCCore.find_zip_file, CCCSimple.find_zip, h1, h2]
  · refine ⟨?_, ?_, ?_, ?_⟩
    · simp [CCCCore.find_zip_file, h1, h2]
    · simp [CCCSimple.find_zip, h1, h2]
    · simp [CCCRunner.processing_pipeline, CCCCore.extract_zip,
        CCCCore.find_zip_file, h1, h2]
    · simp [CCCSimple.run_interactive, CCCSimple.process,
        CCCSimple.extract_zip, CCCSimple.find_zip, h1, h2]

/-- C6 witness: the locator finds the Downloads archive of one concrete
run, the working-directory archive of another, and with no archive at
all reports not-found while the simple pipeline exits with code 1. -/
theorem C6_witness :
    CCCCore.find_zip_file envChild7 = some Loc.downloads ∧
    CCCCore.find_zip_file envZipCwd = some Loc.cwd ∧
    CCCCore.find_zip_file envNoZip = none ∧
    CCCSimple.run_interactive envNoZip stateEmpty = (1, stateEmpty) :=
  ⟨((C6_archive_locator envChild7 stateEmpty).1 rfl).1,
   ((C6_archive_locator envZipCwd stateEmpty).2.1 rfl rfl).1,
   ((C6_archive_locator envNoZip stateEmpty).2.2 rfl rfl).1,
   ((C6_archive_locator envNoZip stateEmpty).2.2 rfl rfl).2.2.2⟩

/-- C1 counterexample: with the solution script present and the child
exiting with code 7, the ccc_simple pipeline exits with code 1, not with
the child exit code 7 (cleanup is indeed skipped, but the code is not
propagated verbatim). -/
theorem C1_counterexample :
    envChild7.launch = LaunchResult.exited 7 ∧
    (CCCSimple.run_interactive envChild7 stateEmpty).1 = 1 ∧
    (CCCSimple.run_interactive envChild7 stateEmpty).1 ≠ 7 := by
  refine ⟨rfl, by decide, by decide⟩

/-- C1 amended: on a nonzero child exit code neither variant cleans up
the staging directory; the runner pipeline propagates the child exit
code verbatim, while the ccc_simple pipeline exits with code 1
regardless of the nonzero code. -/
theorem C1_exit_propagation (env : Env) (s : PipeState) (c : Int)
    (h1 : env.scriptInCwd = true) (h2 : env.launch = LaunchResult.exited c)
    (h3 : c ≠ 0) :
    CCCRunner.run_solution env s = (c, s) ∧
    CCCSimple.after_processing env s = (1, s) := by
  constructor
  · have hf : CCCCore.find_level_script env = some Loc.cwd := by
      simp [CCCCore.find_level_script, h1]
    simp [CCCRunner.run_solution, hf, CCCCore.run_python_script, h2,
      bne_iff_ne, h3]
  · simp [CCCSimple.after_processing, CCCSimple.run_solution, h1, h2,
      beq_iff_eq, h3]

/-- C1 witness: at child exit code 7 the runner solution stage returns
exit code 7 with no state change, the simple tail returns exit code 1
with no state change. -/
theorem C1_witness :
    CCCRunner.run_solution envChild7 stateEmpty = (7, stateEmpty) ∧
    CCCSimple.after_processing envChild7 stateEmpty = (1, stateEmpty) :=
  C1_exit_propagation envChild7 stateEmpty 7 rfl rfl (by decide)

/-- C2 counterexample: with pdfplumber unavailable the runner pipeline
proceeds but creates no prompt file at all (the prompt of the final
state is still absent), contradicting that a placeholder prompt file is
produced by the prompt-synthesis stage. -/
theorem C2_counterexample :
    envNoPdf.pdfAvailable = false ∧
    (CCCRunner.processing_pipeline envNoPdf stateEmpty).1 = true ∧
    ((CCCRunner.processing_pipeline envNoPdf stateEmpty).2).prompt = none := by
  refine ⟨rfl, rfl, rfl⟩

/-- C2 amended: with text extraction unavailable, ccc_simple still
writes the prompt file, whose description section holds the placeholder
text, and proceeds; the runner pipeline skips prompt creation entirely
(no prompt file is written) and likewise proceeds. -/
theorem C2_degraded_prompt (env : Env) (s : PipeState)
    (h1 : env.pdfAvailable = false) (h2 : env.zipInDownloads = true)
    (h3 : env.zipOk = true) :
    (∃ s1, CCCSimple.process env s = some s1 ∧
      s1.prompt = some (CCCSimple.prompt_text env.level "") ∧
      strContains (CCCSimple.prompt_text env.level "")
        CCCSimple.placeholder = true) ∧
    (CCCRunner.processing_pipeline env s).1 = true ∧
    ((CCCRunner.processing_pipeline env s).2).prompt = s.prompt := by
  have hfind : CCCSimple.find_zip env = some Loc.downloads := by
    simp [CCCSimple.find_zip, h2]
  have htext : CCCSimple.extract_pdf_text env = "" := by
    simp [CCCSimple.extract_pdf_text, h1]
  refine ⟨?_, ?_, ?_⟩
  · refine ⟨CCCSimple.organize_files
      (CCCSimple.create_ai_prompt env.level ""
        { s with infos := moveAll s.infos env.zipEntries }), ?_, ?_, ?_⟩
    · simp [CCCSimple.process, CCCSimple.extract_zip, hfind, h3, htext]
    · rw [simple_organize_keeps_prompt]
      rfl
    · exact prompt_text_empty_contains_placeholder env.level
  · simp [CCCRunner.processing_pipeline, CCCCore.extract_zip,
      CCCCore.find_zip_file, h2, h3, CCCCore.extract_pdf_text, h1]
  · simp [CCCRunner.processing_pipeline, CCCCore.extract_zip,
      CCCCore.find_zip_file, h2, h3, CCCCore.extract_pdf_text, h1,
      CCCCore.organize_files]

/-- C2 witness: in the concrete no-pdfplumber run, ccc_simple writes the
placeholder prompt and proceeds, while the runner proceeds with no
prompt written. -/
theorem C2_witness :
    (∃ s1, CCCSimple.process envNoPdf stateEmpty = some s1 ∧
      s1.prompt = some (CCCSimple.prompt_text envNoPdf.level "") ∧
      strContains (CCCSimple.prompt_text envNoPdf.level "")
        CCCSimple.placeholder = true) ∧
    (CCCRunner.processing_pipeline envNoPdf stateEmpty).1 = true ∧
    ((CCCRunner.processing_pipeline envNoPdf stateEmpty).2).prompt =
      stateEmpty.prompt :=
  C2_degraded_prompt envNoPdf stateEmpty rfl rfl rfl
